import Mathlib

/-!
Shallow embedding of `src/plot_config.py`: a matplotlib style-configuration
module.  Python dicts become association lists of `String × PValue`; the
`{**a, **b}` merge becomes `dictMerge` (later keys win); the LaTeX probe
`check_latex_available` becomes a function over the possible outcomes of the
`subprocess.run(['which','latex'], ...)` call; the import-time side effects
(status prints, the fallback warning, the `plt.rcParams.update`) become pure
functions of the availability flag.
-/

namespace PlotConfig

/-- Values that appear in the configuration dicts of `plot_config.py`:
Python ints, floats, bools, strings and lists of strings.  A float literal
`d.e` is carried exactly as the numerator/denominator of its decimal
reading (e.g. `1.5` as `float 3 2`). -/
inductive PValue where
  | int (n : Int)
  | float (num : Int) (den : Nat)
  | bool (b : Bool)
  | str (s : String)
  | strList (l : List String)
deriving DecidableEq, Repr

/-- A Python dict with string keys, as an association list. -/
abbrev PDict := List (String × PValue)

/-- `k in d` for a Python dict. -/
def containsKey (d : PDict) (k : String) : Bool :=
  d.any (fun p => p.1 == k)

/-- `d[k]` for a Python dict (`none` when the key is absent). -/
def getVal (d : PDict) (k : String) : Option PValue :=
  match d.find? (fun p => p.1 == k) with
  | some p => some p.2
  | none => none

/-- `{**a, **b}`: keys of `a` keep their values unless `b` rebinds them;
all keys of `b` are present with `b`'s values (later keys win). -/
def dictMerge (a b : PDict) : PDict :=
  a.filter (fun p => !(containsKey b p.1)) ++ b

/-- Keys of `a` that are rebound by `b` in `{**a, **b}`. -/
def collidingKeys (a b : PDict) : List String :=
  (a.filter (fun p => containsKey b p.1)).map (fun p => p.1)

/-- `SMALL_SIZE = 10` (tick labels, annotations). -/
def SMALL_SIZE : Int := 10

/-- `MEDIUM_SIZE = 12` (axis labels, legends). -/
def MEDIUM_SIZE : Int := 12

/-- `LARGE_SIZE = 14` (titles). -/
def LARGE_SIZE : Int := 14

/-- `base_params`: the base parameters that work without LaTeX. -/
def base_params : PDict :=
  [ ("figure.dpi", .int 100),
    ("savefig.dpi", .int 600),
    ("figure.facecolor", .str "white"),
    ("axes.facecolor", .str "white"),
    ("font.size", .int MEDIUM_SIZE),
    ("axes.titlesize", .int LARGE_SIZE),
    ("axes.labelsize", .int MEDIUM_SIZE),
    ("xtick.labelsize", .int SMALL_SIZE),
    ("ytick.labelsize", .int SMALL_SIZE),
    ("legend.fontsize", .int MEDIUM_SIZE),
    ("figure.titlesize", .int LARGE_SIZE),
    ("lines.linewidth", .float 3 2),
    ("lines.markersize", .int 5),
    ("patch.linewidth", .float 1 2),
    ("xtick.direction", .str "in"),
    ("ytick.direction", .str "in"),
    ("xtick.top", .bool true),
    ("xtick.bottom", .bool true),
    ("ytick.left", .bool true),
    ("ytick.right", .bool true),
    ("xtick.minor.visible", .bool true),
    ("ytick.minor.visible", .bool true),
    ("axes.grid", .bool false),
    ("grid.alpha", .float 3 10),
    ("axes.spines.top", .bool true),
    ("axes.spines.bottom", .bool true),
    ("axes.spines.left", .bool true),
    ("axes.spines.right", .bool true) ]

/-- `latex_params`: the LaTeX-specific parameters, only applied when LaTeX
is available. -/
def latex_params : PDict :=
  [ ("text.usetex", .bool true),
    ("text.latex.preamble", .str "\\usepackage{amsmath}"),
    ("font.family", .str "serif"),
    ("font.serif", .strList ["Computer Modern Roman"]),
    ("mathtext.fontset", .str "cm") ]

/-- The two inline fallback overrides used when LaTeX is unavailable. -/
def fallback_overrides : PDict :=
  [ ("font.family", .str "serif"),
    ("mathtext.fontset", .str "dejavuserif") ]

/-- `contourLevels = 100`. -/
def contourLevels : Int := 100

/-- `colormap = 'bwr'`. -/
def colormap : String := "bwr"

/-- `savefig_format = 'png'`. -/
def savefig_format : String := "png"

/-- `SAVE_DIR = ''` (empty string = current directory). -/
def SAVE_DIR : String := ""

/-- The result object of `subprocess.run(['which','latex'], ...)` when the
process completed within the timeout. -/
structure CompletedProcess where
  returncode : Int
  stdout : String
deriving DecidableEq, Repr

/-- The possible outcomes of the `subprocess.run` call in
`check_latex_available`: completion, or one of the exceptions the source
catches. -/
inductive SubprocessOutcome where
  | completed (p : CompletedProcess)
  | timeoutExpired
  | calledProcessError
  | fileNotFoundError
deriving DecidableEq, Repr

/-- The Python exceptions named in the `except` clause of
`check_latex_available`. -/
inductive PyExc where
  | timeoutExpired
  | calledProcessError
  | fileNotFoundError
deriving DecidableEq, Repr

/-- Whether an exception is caught by
`except (subprocess.TimeoutExpired, subprocess.CalledProcessError, FileNotFoundError)`. -/
def caughtByProbe (e : PyExc) : Bool :=
  match e with
  | .timeoutExpired => true
  | .calledProcessError => true
  | .fileNotFoundError => true

/-- The `try` body of `check_latex_available`: run `which latex`; on exit
code 0 print the resolved path and return `True`, otherwise return `False`;
an exceptional outcome of the call raises.  The second component collects
the lines printed. -/
def probeTryBody (o : SubprocessOutcome) : Except PyExc (Bool × List String) :=
  match o with
  | .completed r =>
      if r.returncode == 0 then
        .ok (true, ["✓ LaTeX found at: " ++ r.stdout.trim])
      else
        .ok (false, [])
  | .timeoutExpired => .error .timeoutExpired
  | .calledProcessError => .error .calledProcessError
  | .fileNotFoundError => .error .fileNotFoundError

/-- `check_latex_available()`: the `try` body with the `except` clause
returning `False` for each caught exception.  A `.error` result would mean
an exception escaped the function. -/
def check_latex_available (o : SubprocessOutcome) : Except PyExc (Bool × List String) :=
  match probeTryBody o with
  | .ok res => .ok res
  | .error e => if caughtByProbe e then .ok (false, []) else .error e

/-- `params`: the merged configuration, as a function of `LATEX_AVAILABLE`.
`{**base_params, **latex_params}` when available, else `{**base_params,
'font.family': 'serif', 'mathtext.fontset': 'dejavuserif'}`. -/
def params (latex_available : Bool) : PDict :=
  if latex_available then
    dictMerge base_params latex_params
  else
    dictMerge base_params fallback_overrides

/-- The message passed to `warnings.warn` on fallback. -/
def latexFallbackWarning : String :=
  "LaTeX not found. Falling back to standard matplotlib fonts. " ++
  "For better typography, install LaTeX (see README for instructions)."

/-- The observable module-level effects of importing `plot_config`, as a
function of `LATEX_AVAILABLE`: the status print and warning of the
`if not LATEX_AVAILABLE` block, the summary prints, and the merged
`params`. -/
structure ModuleEffects where
  statusPrints : List String
  warnings : List String
  summaryPrints : List String
  mergedParams : PDict
deriving DecidableEq, Repr

/-- Module-level execution of lines 119–146 of `plot_config.py`. -/
def moduleInit (LATEX_AVAILABLE : Bool) : ModuleEffects :=
  { statusPrints := if LATEX_AVAILABLE then [] else ["✗ LaTeX not found in PATH"]
    warnings := if LATEX_AVAILABLE then [] else [latexFallbackWarning]
    summaryPrints :=
      [ "🎨 Scientific plotting configuration loaded",
        "   LaTeX support: " ++ (if LATEX_AVAILABLE then "✓ Enabled" else "✗ Disabled"),
        "   Default save format: " ++ savefig_format,
        "   Contour levels: " ++ toString contourLevels,
        "   Colormap: " ++ colormap ]
    mergedParams := params LATEX_AVAILABLE }

/-- `plt.rcParams`: the external library's global configuration, as a total
map from keys to optional current values. -/
abbrev RcParams := String → Option PValue

/-- `plt.rcParams.update(d)`: every key of `d` is written with `d`'s value;
all other keys keep their prior value. -/
def rcUpdate (rc : RcParams) (d : PDict) : RcParams :=
  fun k =>
    match getVal d k with
    | some v => some v
    | none => rc k

/-- A store of dict objects, addressed by allocation index, modelling
Python object identity for the module's dicts. -/
structure Store where
  dicts : List PDict
deriving DecidableEq, Repr

/-- Allocate a fresh dict object. -/
def alloc (s : Store) (d : PDict) : Store × Nat :=
  (⟨s.dicts ++ [d]⟩, s.dicts.length)

/-- Read the dict at an address. -/
def readD (s : Store) (a : Nat) : PDict :=
  s.dicts.getD a []

/-- The module run over the store: allocate `base_params` and
`latex_params`, build `params` by reading them (the `{** ...}` spreads read
the operands and allocate a fresh dict), then apply `params` to
`plt.rcParams`.  Returns the final store, the final `rcParams`, and the
addresses of `base_params`, `latex_params` and `params`. -/
def moduleRun (la : Bool) (rc : RcParams) : Store × RcParams × Nat × Nat × Nat :=
  let s0 : Store := ⟨[]⟩
  let (s1, aBase) := alloc s0 base_params
  let (s2, aLatex) := alloc s1 latex_params
  let merged : PDict :=
    if la then dictMerge (readD s2 aBase) (readD s2 aLatex)
    else dictMerge (readD s2 aBase) fallback_overrides
  let (s3, aParams) := alloc s2 merged
  let rcFinal := rcUpdate rc (readD s3 aParams)
  (s3, rcFinal, aBase, aLatex, aParams)

/- ------------------------------------------------------------------ -/
/- General lemmas about the dict operations.                          -/
/- ------------------------------------------------------------------ -/

theorem containsKey_append (a b : PDict) (k : String) :
    containsKey (a ++ b) k = (containsKey a k || containsKey b k) := by
  simp [containsKey]

theorem getVal_isSome_eq_containsKey (d : PDict) (k : String) :
    (getVal d k).isSome = containsKey d k := by
  unfold getVal containsKey
  cases hf : d.find? (fun p => p.1 == k) with
  | none =>
      have h := List.find?_eq_none.mp hf
      simp only [Option.isSome_none]
      symm
      rw [List.any_eq_false]
      intro p hp
      simpa using h p hp
  | some q =>
      have hq := List.find?_some hf
      have hmem := List.mem_of_find?_eq_some hf
      simp only [Option.isSome_some]
      symm
      rw [List.any_eq_true]
      exact ⟨q, hmem, hq⟩

/-- On key-disjoint dicts, lookup in the concatenation prefers the second
dict (vacuously on the overlap, which is empty) and falls back to the
first: the later-keys-win reading of `{**a, **b}`. -/
theorem getVal_append_disjoint (a b : PDict) (k : String)
    (h : a.all (fun p => !(containsKey b p.1)) = true) :
    getVal (a ++ b) k =
      (match getVal b k with
       | some v => some v
       | none => getVal a k) := by
  unfold getVal
  rw [List.find?_append]
  cases ha : a.find? (fun p => p.1 == k) with
  | none =>
      cases hb : b.find? (fun p => p.1 == k) with
      | none => simp [Option.or]
      | some r => simp [Option.or]
  | some q =>
      cases hb : b.find? (fun p => p.1 == k) with
      | none => simp [Option.or]
      | some r =>
          exfalso
          have hqk := List.find?_some ha
          have hqa : q ∈ a := List.mem_of_find?_eq_some ha
          have hrk := List.find?_some hb
          have hrb : r ∈ b := List.mem_of_find?_eq_some hb
          have hall := List.all_eq_true.mp h q hqa
          have hcb : containsKey b q.1 = true := by
            unfold containsKey
            rw [List.any_eq_true]
            refine ⟨r, hrb, ?_⟩
            have hq1 : q.1 = k := by simpa using hqk
            have hr1 : r.1 = k := by simpa using hrk
            simp [hq1, hr1]
          rw [hcb] at hall
          simp at hall

theorem rcUpdate_idem (rc : RcParams) (d : PDict) :
    rcUpdate (rcUpdate rc d) d = rcUpdate rc d := by
  funext k
  unfold rcUpdate
  cases h : getVal d k with
  | some v => rfl
  | none => rfl

/-- `base_params` and `latex_params` share no key, so the LaTeX-branch
merge is a plain concatenation. -/
theorem dictMerge_base_latex :
    dictMerge base_params latex_params = base_params ++ latex_params := by
  decide

/-- `base_params` and the fallback overrides share no key, so the fallback
merge is a plain concatenation. -/
theorem dictMerge_base_fallback :
    dictMerge base_params fallback_overrides = base_params ++ fallback_overrides := by
  decide

theorem base_latex_disjoint :
    base_params.all (fun p => !(containsKey latex_params p.1)) = true := by
  decide

theorem base_fallback_disjoint :
    base_params.all (fun p => !(containsKey fallback_overrides p.1)) = true := by
  decide

/- ------------------------------------------------------------------ -/
/- Claim theorems.                                                    -/
/- ------------------------------------------------------------------ -/

/-- C1: when the availability flag is false, the merged configuration maps
`font.family` to `serif` and `mathtext.fontset` to `dejavuserif`, and
contains none of `text.usetex`, `text.latex.preamble`, `font.serif`. -/
theorem claim_C1 :
    getVal (params false) "font.family" = some (.str "serif") ∧
    getVal (params false) "mathtext.fontset" = some (.str "dejavuserif") ∧
    containsKey (params false) "text.usetex" = false ∧
    containsKey (params false) "text.latex.preamble" = false ∧
    containsKey (params false) "font.serif" = false := by
  decide

/-- C2: when the availability flag is true, the merged configuration
contains all five LaTeX keys with their literal values. -/
theorem claim_C2 :
    getVal (params true) "text.usetex" = some (.bool true) ∧
    getVal (params true) "font.family" = some (.str "serif") ∧
    getVal (params true) "mathtext.fontset" = some (.str "cm") ∧
    getVal (params true) "text.latex.preamble" = some (.str "\\usepackage{amsmath}") ∧
    getVal (params true) "font.serif" = some (.strList ["Computer Modern Roman"]) := by
  decide

/-- C3: for either flag value, every base key is present in the merged
configuration with its base value, and the merged key set is exactly the
base keys united with the keys of the chosen branch. -/
theorem claim_C3 (la : Bool) :
    base_params.all (fun p => getVal (params la) p.1 == some p.2) = true ∧
    (∀ k : String, containsKey (params la) k =
      (containsKey base_params k ||
       containsKey (if la then latex_params else fallback_overrides) k)) := by
  cases la with
  | true =>
      refine ⟨by decide, ?_⟩
      intro k
      simp only [params, if_true, dictMerge_base_latex]
      exact containsKey_append base_params latex_params k
  | false =>
      refine ⟨by decide, ?_⟩
      intro k
      simp only [params, if_false, dictMerge_base_fallback]
      exact containsKey_append base_params fallback_overrides k

/-- C4: the probe returns `True` exactly when the lookup completed with
exit code 0; every other outcome (nonzero exit, timeout, missing lookup
tool, process error) yields `False`, and no exception escapes the
function (the result is always `.ok`). -/
theorem claim_C4 (o : SubprocessOutcome) :
    (∃ res, check_latex_available o = Except.ok res) ∧
    ((∃ msgs, check_latex_available o = Except.ok (true, msgs)) ↔
      (∃ p, o = SubprocessOutcome.completed p ∧ p.returncode = 0)) := by
  cases o with
  | completed r =>
      by_cases h : r.returncode = 0
      · refine ⟨⟨(true, ["✓ LaTeX found at: " ++ r.stdout.trim]), ?_⟩, ?_, ?_⟩
        · simp [check_latex_available, probeTryBody, h]
        · intro _
          exact ⟨r, rfl, h⟩
        · intro _
          exact ⟨["✓ LaTeX found at: " ++ r.stdout.trim],
            by simp [check_latex_available, probeTryBody, h]⟩
      · refine ⟨⟨(false, []), ?_⟩, ?_, ?_⟩
        · simp [check_latex_available, probeTryBody, h]
        · rintro ⟨msgs, hm⟩
          simp [check_latex_available, probeTryBody, h] at hm
        · rintro ⟨p, hp, hc⟩
          cases hp
          exact absurd hc h
  | timeoutExpired =>
      refine ⟨⟨(false, []), rfl⟩, ?_, ?_⟩
      · rintro ⟨msgs, hm⟩
        simp [check_latex_available, probeTryBody, caughtByProbe] at hm
      · rintro ⟨p, hp, _⟩
        cases hp
  | calledProcessError =>
      refine ⟨⟨(false, []), rfl⟩, ?_, ?_⟩
      · rintro ⟨msgs, hm⟩
        simp [check_latex_available, probeTryBody, caughtByProbe] at hm
      · rintro ⟨p, hp, _⟩
        cases hp
  | fileNotFoundError =>
      refine ⟨⟨(false, []), rfl⟩, ?_, ?_⟩
      · rintro ⟨msgs, hm⟩
        simp [check_latex_available, probeTryBody, caughtByProbe] at hm
      · rintro ⟨p, hp, _⟩
        cases hp

/-- C5: the merge is a pure function of the availability flag: recomputing
it gives the same mapping, the module's merged value is exactly `params`
of the flag, and applying the merged mapping twice equals applying it
once. -/
theorem claim_C5 (la : Bool) (rc : RcParams) :
    params la = params la ∧
    (moduleInit la).mergedParams = params la ∧
    rcUpdate (rcUpdate rc (params la)) (params la) = rcUpdate rc (params la) :=
  ⟨rfl, rfl, rcUpdate_idem rc (params la)⟩

/-- C6: the exposed module-level constants have their literal values:
`contourLevels = 100`, `colormap = 'bwr'`, `savefig_format = 'png'`,
`SAVE_DIR = ''`. -/
theorem claim_C6 :
    contourLevels = 100 ∧ colormap = "bwr" ∧ savefig_format = "png" ∧ SAVE_DIR = "" :=
  ⟨rfl, rfl, rfl, rfl⟩

/-- C7: in the merge of base with the chosen branch the later (branch)
keys win on collision; the base and LaTeX key sets have no collision at
all; and every key of base rebound by the fallback overrides is one of
`font.family`, `mathtext.fontset`. -/
theorem claim_C7 (la : Bool) (k : String) :
    getVal (params la) k =
      (match getVal (if la then latex_params else fallback_overrides) k with
       | some v => some v
       | none => getVal base_params k) ∧
    collidingKeys base_params latex_params = [] ∧
    (collidingKeys base_params fallback_overrides).all
      (fun k2 => k2 == "font.family" || k2 == "mathtext.fontset") = true := by
  refine ⟨?_, by decide, by decide⟩
  cases la with
  | true =>
      simp only [params, if_true, dictMerge_base_latex]
      exact getVal_append_disjoint base_params latex_params k base_latex_disjoint
  | false =>
      simp only [params, if_false, dictMerge_base_fallback]
      exact getVal_append_disjoint base_params fallback_overrides k base_fallback_disjoint

/-- C8: applying the merged configuration writes every merged key into the
global configuration (overwriting the prior value) and leaves every other
key at its prior value. -/
theorem claim_C8 (la : Bool) (rc : RcParams) (k : String) :
    rcUpdate rc (params la) k =
      (if containsKey (params la) k then getVal (params la) k else rc k) := by
  unfold rcUpdate
  cases h : getVal (params la) k with
  | some v =>
      have hc : containsKey (params la) k = true := by
        rw [← getVal_isSome_eq_containsKey, h]
        rfl
      simp [hc, h]
  | none =>
      have hc : containsKey (params la) k = false := by
        rw [← getVal_isSome_eq_containsKey, h]
        rfl
      simp [hc]

/-- C9: after the module run (merge and apply) completes, the stored
`base_params` and `latex_params` objects still equal their definition-time
mappings, for either flag value. -/
theorem claim_C9 (la : Bool) (rc : RcParams) :
    readD (moduleRun la rc).1 (moduleRun la rc).2.2.1 = base_params ∧
    readD (moduleRun la rc).1 (moduleRun la rc).2.2.2.1 = latex_params := by
  cases la <;> exact ⟨rfl, rfl⟩

/-- C10: the fallback warning and the `LaTeX not found in PATH` status
line are emitted exactly when the flag is false; when it is true the
module emits no warning. -/
theorem claim_C10 (la : Bool) :
    (moduleInit la).warnings.isEmpty = la ∧
    (moduleInit la).statusPrints.contains "✗ LaTeX not found in PATH" = !la ∧
    (moduleInit la).warnings.contains latexFallbackWarning = !la := by
  cases la <;> exact ⟨rfl, by decide, by decide⟩

end PlotConfig
